import Mathlib

/-!
# Verification of `telegram/_files/sticker.py`

Shallow embedding of the sticker data-transfer objects (`MaskPosition`,
`Sticker`, `StickerSet`) from `src/telegram/_files/sticker.py` and of the
generic `TelegramObject` machinery they rely on, together with proofs of the
behavioural properties stated in the specification.

Python runtime values are modelled by the inductive type `PyVal`:
JSON scalars, `None`, lists and string-keyed dicts (encoded cons-style so
that decidable equality can be derived), plus the four object classes that
occur in this module (`PhotoSize`, `MaskPosition`, `Sticker`, `StickerSet`),
each represented by one constructor holding its stored attributes in
declaration order.  Exceptions raised by the Python code are modelled by
`Except PyErr`.
-/

/-- A Python runtime value as used by this module: JSON scalars, `None`,
lists and dicts (cons-encoded), and instances of the four classes.  Object
constructors carry the attributes the corresponding `__init__` stores, in
order.  Python floats are modelled as rationals (the code only stores and
compares them; it never does float arithmetic). -/
inductive PyVal where
  | str (s : String)
  | int (n : Int)
  | bool (b : Bool)
  | rat (q : Rat)
  | pyNone
  | listNil
  | listCons (head tail : PyVal)
  | dictNil
  | dictCons (key : String) (val rest : PyVal)
  | photoObj (file_id file_unique_id width height file_size : PyVal)
  | maskPosObj (point x_shift y_shift scale : PyVal)
  | stickerObj (file_id file_unique_id width height is_animated thumb emoji
      file_size set_name mask_position : PyVal)
  | stickerSetObj (name title is_animated contains_masks stickers thumb : PyVal)
deriving DecidableEq

/-- Exceptions raised by the modelled Python code.  `missingArguments` models
`TypeError: __init__() missing n required positional arguments`,
`multipleValues` models `TypeError: got multiple values for keyword argument`,
`valueError` and `typeError` model the failures of `int(...)` and of using a
non-mapping where a mapping is required. -/
inductive PyErr where
  | missingArguments (names : List String)
  | multipleValues (name : String)
  | typeError (msg : String)
  | valueError (msg : String)
  | attributeError (msg : String)
deriving DecidableEq

/-- `d.get(key)` returning `Option`: first matching key of a cons-encoded
dict, `none` when absent or when `d` is not a dict. -/
def dictGet? : PyVal → String → Option PyVal
  | .dictCons k v rest, key => if k = key then some v else dictGet? rest key
  | _, _ => none

/-- Python `d.get(key)`: the stored value, or `None` when the key is absent. -/
def dictGet (d : PyVal) (key : String) : PyVal :=
  (dictGet? d key).getD .pyNone

/-- Python `key in d`. -/
def hasKey (d : PyVal) (key : String) : Bool :=
  (dictGet? d key).isSome

/-- Python `d[key] = v`: replace the value at an existing key in place,
otherwise append the new entry at the end (insertion order).  On a non-dict
value this model is the identity (such states are never reached by the
modelled code on dict inputs). -/
def dictSet : PyVal → String → PyVal → PyVal
  | .dictCons k v rest, key, newV =>
      if k = key then .dictCons k newV rest
      else .dictCons k v (dictSet rest key newV)
  | .dictNil, key, newV => .dictCons key newV .dictNil
  | d, _, _ => d

/-- Python truthiness (`if not data: ...`): `None`, empty containers, `0`,
`0.0`, `""` and `False` are falsy. -/
def pyFalsy : PyVal → Bool
  | .pyNone => true
  | .dictNil => true
  | .listNil => true
  | .str s => s = ""
  | .int n => n = 0
  | .rat q => q = 0
  | .bool b => !b
  | _ => false

/-- Python `int(x)`: identity on ints, `True`/`False` to `1`/`0`, truncation
toward zero on floats, decimal parse on strings; `TypeError` otherwise. -/
def pyInt : PyVal → Except PyErr Int
  | .int n => .ok n
  | .bool b => .ok (if b then 1 else 0)
  | .rat q => .ok (if 0 ≤ q then ⌊q⌋ else ⌈q⌉)
  | .str s =>
      match s.toInt? with
      | some n => .ok n
      | none => .error (.valueError s)
  | _ => .error (.typeError "int() argument")

/-- The required parameter names (in declaration order) that are absent from
the mapping `d`; used to model the `TypeError` CPython raises when binding
`**data` leaves required positional parameters unbound. -/
def missingOf (d : PyVal) (names : List String) : List String :=
  names.filter (fun n => !hasKey d n)

/-- Modelled from the spec: the generic mapping-to-object adapter
(`TelegramObject._parse_data`, not part of `src/`): `None` propagates, any
mapping is shallow-copied before use (so that later key writes hit the copy
and never the caller's mapping); a non-mapping, non-`None` argument fails. -/
def parse_data : PyVal → Except PyErr PyVal
  | .pyNone => .ok .pyNone
  | .dictNil => .ok .dictNil
  | .dictCons k v rest => .ok (.dictCons k v rest)
  | _ => .error (.attributeError "copy")

/-! ## Constructors (`cls(**data)` keyword-argument binding)

Each `init` models the call `cls(bot=bot, **data)` (resp. `cls(**data)` for
`MaskPosition`, which is constructed without a `bot` argument): a key named
like an explicitly passed keyword raises `TypeError: multiple values`, a
missing required parameter raises `TypeError: missing required positional
arguments`, optional parameters default to `None`, and every key that does
not match a declared parameter is silently swallowed by the `**_kwargs`
catch-all and discarded. -/

/-- The required parameters of `MaskPosition.__init__`. -/
def MaskPosition.requiredArgs : List String :=
  ["point", "x_shift", "y_shift", "scale"]

/-- `MaskPosition(**data)`: `__init__` stores `point`, `x_shift`, `y_shift`
and `scale` unchanged and sets `_id_attrs` to the four of them. -/
def MaskPosition.init (d : PyVal) : Except PyErr PyVal :=
  match missingOf d MaskPosition.requiredArgs with
  | [] => .ok (.maskPosObj (dictGet d "point") (dictGet d "x_shift")
      (dictGet d "y_shift") (dictGet d "scale"))
  | ms => .error (.missingArguments ms)

/-- The required parameters of `Sticker.__init__`. -/
def Sticker.requiredArgs : List String :=
  ["file_id", "file_unique_id", "width", "height", "is_animated"]

/-- `Sticker(bot=bot, **data)`: `Sticker.__init__` passes `file_id`,
`file_unique_id`, `file_size`, `thumb` and `bot` to the thumbed-medium base
(modelled from the spec: the base stores them unchanged, `bot` excepted from
the value model), then stores `int(width)`, `int(height)`, `is_animated`,
`emoji`, `set_name` and `mask_position`.  A `bot` key in `data` collides with
the explicitly passed `bot=bot` keyword. -/
def Sticker.init (d : PyVal) : Except PyErr PyVal :=
  if hasKey d "bot" then .error (.multipleValues "bot")
  else
    match missingOf d Sticker.requiredArgs with
    | [] =>
        match pyInt (dictGet d "width") with
        | .error e => .error e
        | .ok w =>
            match pyInt (dictGet d "height") with
            | .error e => .error e
            | .ok h => .ok (.stickerObj (dictGet d "file_id")
                (dictGet d "file_unique_id") (.int w) (.int h)
                (dictGet d "is_animated") (dictGet d "thumb")
                (dictGet d "emoji") (dictGet d "file_size")
                (dictGet d "set_name") (dictGet d "mask_position"))
    | ms => .error (.missingArguments ms)

/-- The required parameters of `StickerSet.__init__`. -/
def StickerSet.requiredArgs : List String :=
  ["name", "title", "is_animated", "contains_masks", "stickers"]

/-- `StickerSet(bot=bot, **data)`: `__init__` stores `name`, `title`,
`is_animated`, `contains_masks`, `stickers` and `thumb` unchanged and sets
`_id_attrs` to `(name,)`; `bot` is not a declared parameter, so the
explicitly passed `bot=bot` keyword collides with a `bot` key in `data` and
is otherwise discarded by `**_kwargs`. -/
def StickerSet.init (d : PyVal) : Except PyErr PyVal :=
  if hasKey d "bot" then .error (.multipleValues "bot")
  else
    match missingOf d StickerSet.requiredArgs with
    | [] => .ok (.stickerSetObj (dictGet d "name") (dictGet d "title")
        (dictGet d "is_animated") (dictGet d "contains_masks")
        (dictGet d "stickers") (dictGet d "thumb"))
    | ms => .error (.missingArguments ms)

/-- Modelled from the spec: `PhotoSize.__init__` (the `PhotoSize` class is a
collaborator outside `src/`): required `file_id`, `file_unique_id`, `width`,
`height`, optional `file_size`, numeric fields coerced with `int`, unknown
keys discarded, `bot` colliding with the explicitly passed keyword. -/
def PhotoSize.init (d : PyVal) : Except PyErr PyVal :=
  if hasKey d "bot" then .error (.multipleValues "bot")
  else
    match missingOf d ["file_id", "file_unique_id", "width", "height"] with
    | [] =>
        match pyInt (dictGet d "width") with
        | .error e => .error e
        | .ok w =>
            match pyInt (dictGet d "height") with
            | .error e => .error e
            | .ok h => .ok (.photoObj (dictGet d "file_id")
                (dictGet d "file_unique_id") (.int w) (.int h)
                (dictGet d "file_size"))
    | ms => .error (.missingArguments ms)

/-! ## Deserialization (`de_json`) -/

/-- Modelled from the spec: `PhotoSize.de_json` (outside `src/`) follows the
generic `TelegramObject.de_json` pattern: copy via `_parse_data`, return
`None` on a falsy mapping, otherwise construct via `cls(bot=bot, **data)`. -/
def PhotoSize.de_json_v (data : PyVal) : Except PyErr PyVal :=
  match parse_data data with
  | .error e => .error e
  | .ok d => if pyFalsy d then .ok .pyNone else PhotoSize.init d

/-- `MaskPosition.de_json` (src/telegram/_files/sticker.py, lines 246-253):
`data = cls._parse_data(data)`; `if data is None: return None`;
`return cls(**data)`.  Note the `is None` test: an empty mapping is *not*
routed to `None` but handed to the constructor. -/
def MaskPosition.de_json_v (data : PyVal) : Except PyErr PyVal :=
  match parse_data data with
  | .error e => .error e
  | .ok d => if d = .pyNone then .ok .pyNone else MaskPosition.init d

/-- `Sticker.de_json` (src/telegram/_files/sticker.py, lines 109-120):
`data = cls._parse_data(data)`; `if not data: return None`;
`data['thumb'] = PhotoSize.de_json(data.get('thumb'), bot)`;
`data['mask_position'] = MaskPosition.de_json(data.get('mask_position'), bot)`;
`return cls(bot=bot, **data)`.  All key writes hit the `_parse_data` copy. -/
def Sticker.de_json_v (data : PyVal) : Except PyErr PyVal :=
  match parse_data data with
  | .error e => .error e
  | .ok d0 =>
      if pyFalsy d0 then .ok .pyNone
      else
        match PhotoSize.de_json_v (dictGet d0 "thumb") with
        | .error e => .error e
        | .ok tv =>
            let d1 := dictSet d0 "thumb" tv
            match MaskPosition.de_json_v (dictGet d1 "mask_position") with
            | .error e => .error e
            | .ok mv => Sticker.init (dictSet d1 "mask_position" mv)

/-- Modelled from the spec: the list-deserialization helper
(`TelegramObject.de_list`, outside `src/`) returns `[]` on a falsy argument
and otherwise maps `Sticker.de_json` over the elements in order, the list
comprehension propagating the first exception (no element is dropped). -/
def mapDeJson (f : PyVal → Except PyErr PyVal) : PyVal → Except PyErr PyVal
  | .listNil => .ok .listNil
  | .listCons x xs =>
      match f x with
      | .error e => .error e
      | .ok y =>
          match mapDeJson f xs with
          | .error e => .error e
          | .ok ys => .ok (.listCons y ys)
  | _ => .error (.typeError "not iterable")

/-- Modelled from the spec: `Sticker.de_list` (see `mapDeJson`). -/
def Sticker.de_list (v : PyVal) : Except PyErr PyVal :=
  if pyFalsy v then .ok .listNil else mapDeJson Sticker.de_json_v v

/-- `StickerSet.de_json` (src/telegram/_files/sticker.py, lines 178-187) in
state-passing form.  Unlike `Sticker.de_json` and `MaskPosition.de_json`, it
does **not** call `cls._parse_data`, so `data['thumb'] = ...` and
`data['stickers'] = ...` write into the caller's mapping.  The first
component is the returned value (or raised exception), the second is the
caller's argument after the call. -/
def StickerSet.de_json_full (data : PyVal) : Except PyErr PyVal × PyVal :=
  if pyFalsy data then (.ok .pyNone, data)
  else
    match data with
    | .dictCons k v rest =>
        let d0 : PyVal := .dictCons k v rest
        match PhotoSize.de_json_v (dictGet d0 "thumb") with
        | .error e => (.error e, d0)
        | .ok tv =>
            let d1 := dictSet d0 "thumb" tv
            match Sticker.de_list (dictGet d1 "stickers") with
            | .error e => (.error e, d1)
            | .ok sv =>
                let d2 := dictSet d1 "stickers" sv
                (StickerSet.init d2, d2)
    | v => (.error (.typeError "not a mapping"), v)

/-- The value returned (or exception raised) by `StickerSet.de_json`. -/
def StickerSet.de_json_v (data : PyVal) : Except PyErr PyVal :=
  (StickerSet.de_json_full data).1

/-- `Sticker.de_json` in state-passing form: `_parse_data` copies the
mapping, every subsequent key write hits the copy, so the caller's argument
is returned unchanged. -/
def Sticker.de_json_full (data : PyVal) : Except PyErr PyVal × PyVal :=
  (Sticker.de_json_v data, data)

/-- `MaskPosition.de_json` in state-passing form: `_parse_data` copies the
mapping, and the method performs no key writes at all. -/
def MaskPosition.de_json_full (data : PyVal) : Except PyErr PyVal × PyVal :=
  (MaskPosition.de_json_v data, data)

/-! ## Serialization (`to_dict`)

Modelled from the spec: the generic `TelegramObject.to_dict` (outside `src/`)
reflectively flattens every declared attribute except `bot` and private ones
into a mapping, omitting attributes whose value is `None` and recursively
flattening attribute values that are themselves telegram objects; it does not
descend into lists (which is why `StickerSet.to_dict`, which is in `src/`,
overrides the `stickers` entry). -/

/-- Append the entry `(k, v)` unless `v` is `None` (the generic `to_dict`
omits `None`-valued attributes). -/
def addField (k : String) (v rest : PyVal) : PyVal :=
  if v = .pyNone then rest else .dictCons k v rest

/-- Modelled from the spec: generic `to_dict` of a `PhotoSize` instance (all
its attributes are scalars). -/
def photo_to_dict : PyVal → PyVal
  | .photoObj fid fuid w h fs =>
      addField "file_id" fid (addField "file_unique_id" fuid
        (addField "width" w (addField "height" h
          (addField "file_size" fs .dictNil))))
  | v => v

/-- Generic `to_dict` of a `MaskPosition` instance (all attributes scalars;
`MaskPosition` adds no override). -/
def mask_to_dict : PyVal → PyVal
  | .maskPosObj p x y s =>
      addField "point" p (addField "x_shift" x
        (addField "y_shift" y (addField "scale" s .dictNil)))
  | v => v

/-- Flattening of a single attribute value by the generic `to_dict`: values
that are themselves telegram objects are serialized recursively, everything
else is stored as-is.  In this schema the only object-valued attributes hold
a `PhotoSize` or a `MaskPosition`. -/
def flattenVal : PyVal → PyVal
  | .photoObj fid fuid w h fs => photo_to_dict (.photoObj fid fuid w h fs)
  | .maskPosObj p x y s => mask_to_dict (.maskPosObj p x y s)
  | v => v

/-- Modelled from the spec: generic `to_dict` of a `Sticker` instance:
attributes in slot order, `None`s omitted, nested `thumb` and
`mask_position` objects flattened. -/
def sticker_to_dict : PyVal → PyVal
  | .stickerObj fid fuid w h ia th em fs sn mp =>
      addField "file_id" fid (addField "file_unique_id" fuid
        (addField "width" w (addField "height" h
          (addField "is_animated" ia (addField "thumb" (flattenVal th)
            (addField "emoji" em (addField "file_size" fs
              (addField "set_name" sn
                (addField "mask_position" (flattenVal mp) .dictNil)))))))))
  | v => v

/-- `v` is a Python list. -/
def isList : PyVal → Bool
  | .listNil => true
  | .listCons _ _ => true
  | _ => false

/-- Map a pure function over a cons-encoded list. -/
def pyListMap (f : PyVal → PyVal) : PyVal → PyVal
  | .listNil => .listNil
  | .listCons x xs => .listCons (f x) (pyListMap f xs)
  | v => v

/-- `StickerSet.to_dict` (src/telegram/_files/sticker.py, lines 189-195):
`data = super().to_dict()` (generic flattening, which stores the `stickers`
list of `Sticker` objects as-is), then
`data['stickers'] = [s.to_dict() for s in data.get('stickers')]`.
Iterating a non-list `stickers` entry raises. -/
def StickerSet.to_dict_m : PyVal → Except PyErr PyVal
  | .stickerSetObj nm tt ia cm st th =>
      let d : PyVal := addField "name" nm (addField "title" tt
        (addField "is_animated" ia (addField "contains_masks" cm
          (addField "stickers" st (addField "thumb" (flattenVal th) .dictNil)))))
      let sv := dictGet d "stickers"
      if isList sv then .ok (dictSet d "stickers" (pyListMap sticker_to_dict sv))
      else .error (.typeError "not iterable")
  | _ => .error (.typeError "to_dict")

/-! ## Equality

Modelled from the spec: `TelegramObject.__eq__` (outside `src/`) compares two
instances of the same class by their `_id_attrs` tuples and never equates
instances of different classes; which attributes go into `_id_attrs` is set
by each `__init__` (in `src/` for the three sticker classes: all four fields
for `MaskPosition`, `(name,)` for `StickerSet`, and — via the thumbed-medium
base, as stated by the class docstring — `(file_unique_id,)` for `Sticker`). -/

/-- The `_id_attrs` tuple of an instance, `none` for non-objects. -/
def py_id_attrs : PyVal → Option (List PyVal)
  | .photoObj _ fuid _ _ _ => some [fuid]
  | .maskPosObj p x y s => some [p, x, y, s]
  | .stickerObj _ fuid _ _ _ _ _ _ _ _ => some [fuid]
  | .stickerSetObj nm _ _ _ _ _ => some [nm]
  | _ => none

/-- Whether two values are instances of the same telegram-object class. -/
def sameClass : PyVal → PyVal → Bool
  | .photoObj _ _ _ _ _, .photoObj _ _ _ _ _ => true
  | .maskPosObj _ _ _ _, .maskPosObj _ _ _ _ => true
  | .stickerObj _ _ _ _ _ _ _ _ _ _, .stickerObj _ _ _ _ _ _ _ _ _ _ => true
  | .stickerSetObj _ _ _ _ _ _, .stickerSetObj _ _ _ _ _ _ => true
  | _, _ => false

/-- Python `==` on the values of this model: telegram objects compare by
class and `_id_attrs`, other values structurally. -/
def pyEq (a b : PyVal) : Bool :=
  match py_id_attrs a, py_id_attrs b with
  | some xs, some ys => sameClass a b && decide (xs = ys)
  | _, _ => decide (a = b)

/-! ## Well-formed (wire-schema conformant) instances -/

/-- `v` is a Python `str`. -/
def isStr : PyVal → Bool
  | .str _ => true
  | _ => false

/-- `v` is a Python `int`. -/
def isInt : PyVal → Bool
  | .int _ => true
  | _ => false

/-- `v` is a Python `bool`. -/
def isBool : PyVal → Bool
  | .bool _ => true
  | _ => false

/-- `v` is a Python number (`int` or `float`). -/
def isNum : PyVal → Bool
  | .int _ => true
  | .rat _ => true
  | _ => false

/-- `v` is `None` or satisfies `p` (an optional field). -/
def isNoneOr (p : PyVal → Bool) (v : PyVal) : Bool :=
  decide (v = .pyNone) || p v

/-- A `PhotoSize` instance with wire-schema field types. -/
def wfPhoto : PyVal → Bool
  | .photoObj fid fuid w h fs =>
      isStr fid && isStr fuid && isInt w && isInt h && isNoneOr isInt fs
  | _ => false

/-- A `MaskPosition` instance with wire-schema field types. -/
def wfMask : PyVal → Bool
  | .maskPosObj p x y s => isStr p && isNum x && isNum y && isNum s
  | _ => false

/-- A valid `Sticker`: one constructed from a well-formed wire payload. -/
def wfSticker : PyVal → Bool
  | .stickerObj fid fuid w h ia th em fs sn mp =>
      isStr fid && isStr fuid && isInt w && isInt h && isBool ia
        && isNoneOr wfPhoto th && isNoneOr isStr em && isNoneOr isInt fs
        && isNoneOr isStr sn && isNoneOr wfMask mp
  | _ => false

/-- A list of valid `Sticker`s. -/
def wfStickerList : PyVal → Bool
  | .listNil => true
  | .listCons x xs => wfSticker x && wfStickerList xs
  | _ => false

/-- A valid `StickerSet`: one constructed from a well-formed wire payload. -/
def wfStickerSet : PyVal → Bool
  | .stickerSetObj nm tt ia cm st th =>
      isStr nm && isStr tt && isBool ia && isBool cm && wfStickerList st
        && isNoneOr wfPhoto th
  | _ => false

/-- The `stickers` attribute of a `StickerSet` instance. -/
def stickersOf : PyVal → PyVal
  | .stickerSetObj _ _ _ _ st _ => st
  | _ => .pyNone

/-- `v` is a Python dict. -/
def isDict : PyVal → Bool
  | .dictNil => true
  | .dictCons _ _ _ => true
  | _ => false

/-- Python `e in l` restricted to list operands (decidable membership). -/
def listContains (l e : PyVal) : Bool :=
  match l with
  | .listCons x xs => decide (x = e) || listContains xs e
  | _ => false

/-- All declared parameters of `Sticker.__init__` together with the `bot`
keyword that `de_json` passes explicitly: keys outside this list are
unrecognized and swallowed by `**_kwargs`. -/
def Sticker.allParams : List String :=
  ["file_id", "file_unique_id", "width", "height", "is_animated", "thumb",
    "emoji", "file_size", "set_name", "mask_position", "bot"]

/-- All declared parameters of `StickerSet.__init__` together with the
explicitly passed `bot` keyword. -/
def StickerSet.allParams : List String :=
  ["name", "title", "is_animated", "contains_masks", "stickers", "thumb", "bot"]

/-- A sample valid `Sticker` instance (as built from a well-formed wire
payload), exercising all optional fields. -/
def sampleSticker : PyVal :=
  .stickerObj (.str "BQADBAAD") (.str "u1") (.int 512) (.int 512) (.bool true)
    (.photoObj (.str "thumb-id") (.str "tu1") (.int 64) (.int 64) .pyNone)
    (.str "emoji-1") (.int 3) (.str "pack")
    (.maskPosObj (.str "forehead") (.rat (-1)) (.rat 0) (.rat 2))

/-- A sample valid `StickerSet` instance holding `sampleSticker`. -/
def sampleStickerSet : PyVal :=
  .stickerSetObj (.str "pack") (.str "Pack Title") (.bool true) (.bool false)
    (.listCons sampleSticker .listNil) .pyNone

/-- A sample `StickerSet` wire payload without a `thumb` entry. -/
def samplePayload : PyVal :=
  .dictCons "name" (.str "pack") (.dictCons "title" (.str "Pack Title")
    (.dictCons "is_animated" (.bool false) (.dictCons "contains_masks"
      (.bool false) (.dictCons "stickers" .listNil .dictNil))))

/-- A sticker element payload lacking the required `width` field. -/
def sampleBadSticker : PyVal :=
  .dictCons "file_id" (.str "a") (.dictCons "file_unique_id" (.str "u1")
    (.dictCons "height" (.int 1) (.dictCons "is_animated" (.bool false)
      .dictNil)))

/-- A `StickerSet` wire payload whose `stickers` list contains
`sampleBadSticker`. -/
def sampleBadPayloadRest : PyVal :=
  .dictCons "title" (.str "Pack Title") (.dictCons "is_animated" (.bool false)
    (.dictCons "contains_masks" (.bool false) (.dictCons "stickers"
      (.listCons sampleBadSticker .listNil) .dictNil)))

/-! ## Helper lemmas -/

instance : DecidableEq (Except PyErr PyVal)
  | .ok a, .ok b => decidable_of_iff (a = b) (by simp)
  | .error a, .error b => decidable_of_iff (a = b) (by simp)
  | .ok _, .error _ => isFalse (by simp)
  | .error _, .ok _ => isFalse (by simp)

theorem isStr_shape {v : PyVal} (h : isStr v = true) : ∃ s, v = .str s := by
  cases v <;> simp_all [isStr]

theorem isInt_shape {v : PyVal} (h : isInt v = true) : ∃ n, v = .int n := by
  cases v <;> simp_all [isInt]

theorem isBool_shape {v : PyVal} (h : isBool v = true) : ∃ b, v = .bool b := by
  cases v <;> simp_all [isBool]

theorem isNum_shape {v : PyVal} (h : isNum v = true) :
    (∃ n, v = .int n) ∨ (∃ q, v = .rat q) := by
  cases v <;> simp_all [isNum]

theorem isNoneOr_elim {p : PyVal → Bool} {v : PyVal} (h : isNoneOr p v = true) :
    v = .pyNone ∨ p v = true := by
  simpa [isNoneOr] using h

theorem wfPhoto_shape {v : PyVal} (h : wfPhoto v = true) :
    ∃ a b w hh fs, v = .photoObj (.str a) (.str b) (.int w) (.int hh) fs
      ∧ (fs = .pyNone ∨ ∃ n, fs = .int n) := by
  cases v <;> simp only [wfPhoto, Bool.and_eq_true] at h
  case photoObj fid fuid w hh fs =>
    obtain ⟨⟨⟨⟨h1, h2⟩, h3⟩, h4⟩, h5⟩ := h
    obtain ⟨a, rfl⟩ := isStr_shape h1
    obtain ⟨b, rfl⟩ := isStr_shape h2
    obtain ⟨w', rfl⟩ := isInt_shape h3
    obtain ⟨h', rfl⟩ := isInt_shape h4
    rcases isNoneOr_elim h5 with h6 | h6
    · exact ⟨a, b, w', h', _, rfl, Or.inl h6⟩
    · obtain ⟨n, rfl⟩ := isInt_shape h6
      exact ⟨a, b, w', h', _, rfl, Or.inr ⟨n, rfl⟩⟩
  all_goals exact absurd h (by simp)

theorem optStr_shape {v : PyVal} (h : isNoneOr isStr v = true) :
    v = .pyNone ∨ ∃ s, v = .str s := by
  rcases isNoneOr_elim h with h' | h'
  · exact Or.inl h'
  · exact Or.inr (isStr_shape h')

theorem optInt_shape {v : PyVal} (h : isNoneOr isInt v = true) :
    v = .pyNone ∨ ∃ n, v = .int n := by
  rcases isNoneOr_elim h with h' | h'
  · exact Or.inl h'
  · exact Or.inr (isInt_shape h')

theorem optPhoto_shape {v : PyVal} (h : isNoneOr wfPhoto v = true) :
    v = .pyNone ∨ ∃ a b w hh fs, v = .photoObj (.str a) (.str b) (.int w) (.int hh) fs
      ∧ (fs = .pyNone ∨ ∃ n, fs = .int n) := by
  rcases isNoneOr_elim h with h' | h'
  · exact Or.inl h'
  · exact Or.inr (wfPhoto_shape h')

theorem optMask_shape {v : PyVal} (h : isNoneOr wfMask v = true) :
    v = .pyNone ∨ ∃ pt x y s, v = .maskPosObj (.str pt) x y s
      ∧ ((∃ n, x = .int n) ∨ (∃ q, x = .rat q))
      ∧ ((∃ n, y = .int n) ∨ (∃ q, y = .rat q))
      ∧ ((∃ n, s = .int n) ∨ (∃ q, s = .rat q)) := by
  rcases isNoneOr_elim h with h' | h'
  · exact Or.inl h'
  · right
    cases v <;> simp only [wfMask, Bool.and_eq_true] at h'
    case maskPosObj p x y s =>
      obtain ⟨⟨⟨h1, h2⟩, h3⟩, h4⟩ := h'
      obtain ⟨pt, rfl⟩ := isStr_shape h1
      exact ⟨pt, x, y, s, rfl, isNum_shape h2, isNum_shape h3, isNum_shape h4⟩
    all_goals exact absurd h' (by simp)

set_option maxHeartbeats 4000000 in
theorem sticker_roundtrip {s : PyVal} (h : wfSticker s = true) :
    Sticker.de_json_v (sticker_to_dict s) = .ok s := by
  cases s <;> simp only [wfSticker, Bool.and_eq_true] at h
  case stickerObj fid fuid w hh ia th em fs sn mp =>
    obtain ⟨⟨⟨⟨⟨⟨⟨⟨⟨h1, h2⟩, h3⟩, h4⟩, h5⟩, h6⟩, h7⟩, h8⟩, h9⟩, h10⟩ := h
    obtain ⟨a, rfl⟩ := isStr_shape h1
    obtain ⟨b, rfl⟩ := isStr_shape h2
    obtain ⟨w', rfl⟩ := isInt_shape h3
    obtain ⟨h', rfl⟩ := isInt_shape h4
    obtain ⟨i', rfl⟩ := isBool_shape h5
    rcases optPhoto_shape h6 with rfl | ⟨pa, pb, pw, ph, pfs, rfl, rfl | ⟨pn, rfl⟩⟩ <;>
    rcases optStr_shape h7 with rfl | ⟨e1, rfl⟩ <;>
    rcases optInt_shape h8 with rfl | ⟨f1, rfl⟩ <;>
    rcases optStr_shape h9 with rfl | ⟨n1, rfl⟩ <;>
    rcases optMask_shape h10 with rfl |
      ⟨pt, x, y, sc, rfl, ⟨xn, rfl⟩ | ⟨xq, rfl⟩, ⟨yn, rfl⟩ | ⟨yq, rfl⟩,
        ⟨sn2, rfl⟩ | ⟨sq, rfl⟩⟩ <;>
    rfl
  all_goals exact absurd h (by simp)

theorem mapDeJson_roundtrip {l : PyVal} (h : wfStickerList l = true) :
    mapDeJson Sticker.de_json_v (pyListMap sticker_to_dict l) = .ok l := by
  induction l <;> simp only [wfStickerList, Bool.and_eq_true] at h
  case listNil => rfl
  case listCons x xs _ ih =>
    obtain ⟨hx, hxs⟩ := h
    simp only [pyListMap, mapDeJson, sticker_roundtrip hx, ih hxs]
  all_goals exact absurd h (by simp)

theorem de_list_roundtrip {l : PyVal} (h : wfStickerList l = true) :
    Sticker.de_list (pyListMap sticker_to_dict l) = .ok l := by
  cases l <;> simp only [wfStickerList, Bool.and_eq_true] at h
  case listNil => rfl
  case listCons x xs =>
    have := mapDeJson_roundtrip (l := PyVal.listCons x xs)
      (by simp [wfStickerList, h.1, h.2])
    simpa [Sticker.de_list, pyListMap, pyFalsy] using this
  all_goals exact absurd h (by simp)

theorem wfStickerList_shape {v : PyVal} (h : wfStickerList v = true) :
    v = .listNil ∨ ∃ x xs, v = .listCons x xs := by
  cases v <;> simp_all [wfStickerList]

theorem set_roundtrip {ss : PyVal} (h : wfStickerSet ss = true) :
    ∃ d, StickerSet.to_dict_m ss = .ok d ∧ StickerSet.de_json_v d = .ok ss := by
  cases ss <;> simp only [wfStickerSet, Bool.and_eq_true] at h
  case stickerSetObj nm tt ia cm st th =>
    obtain ⟨⟨⟨⟨⟨h1, h2⟩, h3⟩, h4⟩, h5⟩, h6⟩ := h
    obtain ⟨nm', rfl⟩ := isStr_shape h1
    obtain ⟨tt', rfl⟩ := isStr_shape h2
    obtain ⟨ia', rfl⟩ := isBool_shape h3
    obtain ⟨cm', rfl⟩ := isBool_shape h4
    have hlist := de_list_roundtrip h5
    rcases optPhoto_shape h6 with rfl | ⟨pa, pb, pw, ph, pfs, rfl, rfl | ⟨pn, rfl⟩⟩ <;>
    rcases wfStickerList_shape h5 with rfl | ⟨x, xs, rfl⟩ <;>
    refine ⟨_, rfl, ?_⟩ <;>
    first
      | rfl
      | simp [StickerSet.de_json_v, StickerSet.de_json_full, StickerSet.to_dict_m,
          addField, flattenVal, dictGet, dictGet?, dictSet, hasKey, pyFalsy, isList,
          PhotoSize.de_json_v, parse_data, StickerSet.init, missingOf,
          StickerSet.requiredArgs, PhotoSize.init, pyInt, photo_to_dict, hlist]
  all_goals exact absurd h (by simp)

theorem pyEq_refl (v : PyVal) : pyEq v v = true := by
  cases v <;> simp [pyEq, py_id_attrs, sameClass]

theorem missingOf_ne_nil {d : PyVal} {names : List String} {n : String}
    (hn : n ∈ names) (h : hasKey d n = false) : missingOf d names ≠ [] := by
  intro he
  have h2 : ∀ a ∈ names, hasKey d a = true := by simpa [missingOf] using he
  rw [h2 n hn] at h
  cases h

theorem dictGet?_set_ne {d : PyVal} {k k' : String} {v : PyVal} (h : k' ≠ k) :
    dictGet? (dictSet d k v) k' = dictGet? d k' := by
  induction d <;> simp [dictSet, dictGet?, Ne.symm h]
  case dictCons key val rest _ ih =>
    by_cases hk : key = k
    · subst hk
      simp [dictGet?, Ne.symm h]
    · simp [hk, dictGet?, ih]

theorem dictGet_set_ne {d : PyVal} {k k' : String} {v : PyVal} (h : k' ≠ k) :
    dictGet (dictSet d k v) k' = dictGet d k' := by
  simp [dictGet, dictGet?_set_ne h]

theorem hasKey_set_ne {d : PyVal} {k k' : String} {v : PyVal} (h : k' ≠ k) :
    hasKey (dictSet d k v) k' = hasKey d k' := by
  simp [hasKey, dictGet?_set_ne h]

theorem missingOf_set_ne {d : PyVal} {k : String} {v : PyVal} {names : List String}
    (h : ¬ k ∈ names) : missingOf (dictSet d k v) names = missingOf d names := by
  apply List.filter_congr
  intro n hn
  have : n ≠ k := fun he => h (he ▸ hn)
  simp [hasKey_set_ne this]

theorem listContains_shape {l e : PyVal} (h : listContains l e = true) :
    ∃ x xs, l = .listCons x xs := by
  cases l <;> simp_all [listContains]

theorem mapDeJson_mem_error {l e : PyVal} {err : PyErr}
    (hc : listContains l e = true) (he : Sticker.de_json_v e = .error err) :
    ∃ e2, mapDeJson Sticker.de_json_v l = .error e2 := by
  induction l <;> simp only [listContains] at hc
  case listCons x xs _ ih =>
    rcases Bool.or_eq_true_iff.mp hc with hx | hxs
    · have hx' : x = e := of_decide_eq_true hx
      subst hx'
      exact ⟨err, by simp [mapDeJson, he]⟩
    · cases hf : Sticker.de_json_v x
      case error e1 => exact ⟨e1, by simp [mapDeJson, hf]⟩
      case ok y =>
        obtain ⟨e2, h2⟩ := ih hxs
        exact ⟨e2, by simp [mapDeJson, hf, h2]⟩
  all_goals simp_all

/-! ## Verified properties of the claims -/

/-- C1 (counterexample): the claim fails for `MaskPosition` on the empty
mapping: `MaskPosition.de_json` tests `if data is None`, so `{}` is handed to
the constructor, which raises a missing-arguments `TypeError` instead of
returning `None`. -/
theorem mask_de_json_empty_raises :
    MaskPosition.de_json_v .dictNil =
      .error (.missingArguments ["point", "x_shift", "y_shift", "scale"])
    ∧ MaskPosition.de_json_v .dictNil ≠ .ok .pyNone := by decide

/-- C1 (amended): all three `de_json` return `None` on `None` input without
raising; `Sticker.de_json` and `StickerSet.de_json` also return `None` on the
empty mapping; `MaskPosition.de_json`, however, raises a missing-arguments
`TypeError` on the empty mapping. -/
theorem de_json_null_empty_behavior :
    MaskPosition.de_json_v .pyNone = .ok .pyNone
    ∧ Sticker.de_json_v .pyNone = .ok .pyNone
    ∧ StickerSet.de_json_v .pyNone = .ok .pyNone
    ∧ Sticker.de_json_v .dictNil = .ok .pyNone
    ∧ StickerSet.de_json_v .dictNil = .ok .pyNone
    ∧ MaskPosition.de_json_v .dictNil =
        .error (.missingArguments ["point", "x_shift", "y_shift", "scale"]) := by
  decide

/-- C2 (counterexample): `StickerSet.de_json` is not pure with respect to its
argument: on a well-formed payload without a `thumb` entry the call succeeds
but writes a `thumb` key (and rewrites `stickers`) into the caller's mapping,
so the mapping does not hold the same keys and values afterwards. -/
theorem stickerset_de_json_mutates_caller :
    (StickerSet.de_json_full samplePayload).1 =
      .ok (.stickerSetObj (.str "pack") (.str "Pack Title") (.bool false)
        (.bool false) .listNil .pyNone)
    ∧ (StickerSet.de_json_full samplePayload).2 ≠ samplePayload
    ∧ hasKey (StickerSet.de_json_full samplePayload).2 "thumb" = true
    ∧ hasKey samplePayload "thumb" = false := by decide

/-- C2 (amended): `MaskPosition.de_json` and `Sticker.de_json` leave the
caller's mapping unchanged (they work on the `_parse_data` copy), but
`StickerSet.de_json` overwrites the `thumb` and `stickers` entries of the
caller's mapping whenever the nested deserializations succeed. -/
theorem de_json_purity_amended :
    (∀ v, (MaskPosition.de_json_full v).2 = v)
    ∧ (∀ v, (Sticker.de_json_full v).2 = v)
    ∧ (∀ k v rest tv sv,
        PhotoSize.de_json_v (dictGet (.dictCons k v rest) "thumb") = .ok tv →
        Sticker.de_list (dictGet (dictSet (.dictCons k v rest) "thumb" tv)
          "stickers") = .ok sv →
        (StickerSet.de_json_full (.dictCons k v rest)).2 =
          dictSet (dictSet (.dictCons k v rest) "thumb" tv) "stickers" sv) := by
  refine ⟨fun v => rfl, fun v => rfl, ?_⟩
  intro k v rest tv sv h1 h2
  simp [StickerSet.de_json_full, pyFalsy, h1, h2]

/-- Witness for the amended C2 statement at the sample payload. -/
theorem de_json_purity_amended_witness :
    PhotoSize.de_json_v (dictGet samplePayload "thumb") = .ok .pyNone
    ∧ Sticker.de_list (dictGet (dictSet samplePayload "thumb" .pyNone)
        "stickers") = .ok .listNil
    ∧ (StickerSet.de_json_full samplePayload).2 =
        dictSet (dictSet samplePayload "thumb" .pyNone) "stickers" .listNil :=
  ⟨by decide, by decide,
    de_json_purity_amended.2.2 "name" (.str "pack")
      (.dictCons "title" (.str "Pack Title") (.dictCons "is_animated"
        (.bool false) (.dictCons "contains_masks" (.bool false)
          (.dictCons "stickers" .listNil .dictNil))))
      .pyNone .listNil (by decide) (by decide)⟩

/-- C3: deserializing the serialization of any valid `Sticker` yields a
`Sticker` that is equal to it under the `file_unique_id`-based equality
(indeed, an identical instance). -/
theorem sticker_serialize_roundtrip (s : PyVal) (h : wfSticker s = true) :
    ∃ s2, Sticker.de_json_v (sticker_to_dict s) = .ok s2 ∧ pyEq s2 s = true :=
  ⟨s, sticker_roundtrip h, pyEq_refl s⟩

/-- Witness for C3 at a concrete sticker with all optional fields present. -/
theorem sticker_serialize_roundtrip_witness :
    wfSticker sampleSticker = true
    ∧ ∃ s2, Sticker.de_json_v (sticker_to_dict sampleSticker) = .ok s2
        ∧ pyEq s2 sampleSticker = true :=
  ⟨by decide, sticker_serialize_roundtrip sampleSticker (by decide)⟩

/-- C4: deserializing the mapping produced by `StickerSet.to_dict` (which
element-wise serializes the contained stickers) succeeds and yields a
`StickerSet` whose `stickers` list is equal to — hence has the same length
and order as — the original one. -/
theorem stickerset_serialize_roundtrip (ss : PyVal) (h : wfStickerSet ss = true) :
    ∃ d r, StickerSet.to_dict_m ss = .ok d ∧ StickerSet.de_json_v d = .ok r
      ∧ stickersOf r = stickersOf ss := by
  obtain ⟨d, h1, h2⟩ := set_roundtrip h
  exact ⟨d, ss, h1, h2, rfl⟩

/-- Witness for C4 at a concrete one-element sticker set. -/
theorem stickerset_serialize_roundtrip_witness :
    wfStickerSet sampleStickerSet = true
    ∧ ∃ d r, StickerSet.to_dict_m sampleStickerSet = .ok d
        ∧ StickerSet.de_json_v d = .ok r
        ∧ stickersOf r = stickersOf sampleStickerSet :=
  ⟨by decide, stickerset_serialize_roundtrip sampleStickerSet (by decide)⟩

/-- C5: two `Sticker` instances compare equal exactly when their
`file_unique_id` attributes are equal, whatever all the other attributes
are. -/
theorem sticker_eq_iff_file_unique_id
    (f1 u1 w1 h1 a1 t1 e1 fs1 n1 m1 f2 u2 w2 h2 a2 t2 e2 fs2 n2 m2 : PyVal) :
    pyEq (.stickerObj f1 u1 w1 h1 a1 t1 e1 fs1 n1 m1)
      (.stickerObj f2 u2 w2 h2 a2 t2 e2 fs2 n2 m2) = true ↔ u1 = u2 := by
  simp [pyEq, py_id_attrs, sameClass]

/-- C6: two `StickerSet` instances compare equal exactly when their `name`
attributes are equal, whatever their `stickers` lists and other attributes
are. -/
theorem stickerset_eq_iff_name (n1 t1 a1 c1 s1 th1 n2 t2 a2 c2 s2 th2 : PyVal) :
    pyEq (.stickerSetObj n1 t1 a1 c1 s1 th1)
      (.stickerSetObj n2 t2 a2 c2 s2 th2) = true ↔ n1 = n2 := by
  simp [pyEq, py_id_attrs, sameClass]

/-- C7: two `MaskPosition` instances compare equal exactly when their
`point`, `x_shift`, `y_shift` and `scale` attributes are pairwise equal. -/
theorem mask_eq_iff_all_fields (p1 x1 y1 s1 p2 x2 y2 s2 : PyVal) :
    pyEq (.maskPosObj p1 x1 y1 s1) (.maskPosObj p2 x2 y2 s2) = true ↔
      p1 = p2 ∧ x1 = x2 ∧ y1 = y2 ∧ s1 = s2 := by
  simp [pyEq, py_id_attrs, sameClass]

/-- C8: on any mapping input from which at least one of the four required
fields is absent, `MaskPosition.de_json` raises a missing-arguments
`TypeError` — it never returns a partially populated instance. -/
theorem mask_de_json_missing_field (d : PyVal) (hd : isDict d = true)
    (hmiss : hasKey d "point" = false ∨ hasKey d "x_shift" = false ∨
      hasKey d "y_shift" = false ∨ hasKey d "scale" = false) :
    ∃ ns, MaskPosition.de_json_v d = .error (.missingArguments ns) ∧ ns ≠ [] := by
  have hne : missingOf d MaskPosition.requiredArgs ≠ [] := by
    rcases hmiss with h | h | h | h <;>
      exact missingOf_ne_nil (by simp [MaskPosition.requiredArgs]) h
  cases d <;> simp only [isDict] at hd
  case dictNil =>
    cases hm : missingOf .dictNil MaskPosition.requiredArgs with
    | nil => exact absurd hm hne
    | cons a as =>
        exact ⟨a :: as,
          by simp [MaskPosition.de_json_v, parse_data, MaskPosition.init, hm],
          by simp⟩
  case dictCons k v rest =>
    cases hm : missingOf (.dictCons k v rest) MaskPosition.requiredArgs with
    | nil => exact absurd hm hne
    | cons a as =>
        exact ⟨a :: as,
          by simp [MaskPosition.de_json_v, parse_data, MaskPosition.init, hm],
          by simp⟩
  all_goals exact Bool.noConfusion hd

/-- Witness for C8 at a non-empty mapping holding only `point`. -/
theorem mask_de_json_missing_field_witness :
    isDict (.dictCons "point" (.str "forehead") .dictNil) = true
    ∧ hasKey (.dictCons "point" (.str "forehead") .dictNil) "x_shift" = false
    ∧ ∃ ns, MaskPosition.de_json_v (.dictCons "point" (.str "forehead") .dictNil)
        = .error (.missingArguments ns) ∧ ns ≠ [] :=
  ⟨by decide, by decide,
    mask_de_json_missing_field (.dictCons "point" (.str "forehead") .dictNil)
      (by decide) (Or.inr (Or.inl (by decide)))⟩

/-- C9: if any element of the `stickers` entry of a `StickerSet` payload
fails to deserialize, `StickerSet.de_json` raises instead of returning a set
with that element dropped. -/
theorem stickerset_de_json_all_or_nothing (k : String) (v rest e : PyVal)
    (err : PyErr)
    (hst : listContains (dictGet (.dictCons k v rest) "stickers") e = true)
    (he : Sticker.de_json_v e = .error err) :
    ∃ e2, StickerSet.de_json_v (.dictCons k v rest) = .error e2 := by
  cases hp : PhotoSize.de_json_v (dictGet (.dictCons k v rest) "thumb")
  case error e1 =>
    exact ⟨e1, by simp [StickerSet.de_json_v, StickerSet.de_json_full, pyFalsy, hp]⟩
  case ok tv =>
    have hget : dictGet (dictSet (.dictCons k v rest) "thumb" tv) "stickers" =
        dictGet (.dictCons k v rest) "stickers" := dictGet_set_ne (by decide)
    obtain ⟨x, xs, hxs⟩ := listContains_shape hst
    obtain ⟨e2, h2⟩ := mapDeJson_mem_error hst he
    refine ⟨e2, ?_⟩
    simp [StickerSet.de_json_v, StickerSet.de_json_full, pyFalsy, hp, hget,
      Sticker.de_list, hxs, h2]
    simp [hxs] at h2
    simp [h2]

/-- Witness for C9 at a payload whose single sticker element lacks `width`:
the whole `StickerSet.de_json` call raises. -/
theorem stickerset_de_json_all_or_nothing_witness :
    listContains (dictGet (.dictCons "name" (.str "pack") sampleBadPayloadRest)
      "stickers") sampleBadSticker = true
    ∧ Sticker.de_json_v sampleBadSticker = .error (.missingArguments ["width"])
    ∧ ∃ e2, StickerSet.de_json_v (.dictCons "name" (.str "pack")
        sampleBadPayloadRest) = .error e2 :=
  ⟨by decide, by decide,
    stickerset_de_json_all_or_nothing "name" (.str "pack") sampleBadPayloadRest
      sampleBadSticker (.missingArguments ["width"]) (by decide) (by decide)⟩

/-- C10: adding an entry under a key that is not a declared constructor
parameter changes nothing: each of the three constructors produces exactly
the same result (object or error) on the extended mapping as on the original
one — unrecognized keys are silently discarded by `**_kwargs`. -/
theorem init_ignores_unknown_keys (d : PyVal) (k : String) (v : PyVal)
    (h1 : ¬ k ∈ MaskPosition.requiredArgs) (h2 : ¬ k ∈ Sticker.allParams)
    (h3 : ¬ k ∈ StickerSet.allParams) :
    MaskPosition.init (dictSet d k v) = MaskPosition.init d
    ∧ Sticker.init (dictSet d k v) = Sticker.init d
    ∧ StickerSet.init (dictSet d k v) = StickerSet.init d := by
  have hm1 : ∀ s ∈ MaskPosition.requiredArgs, s ≠ k := fun s hs he => h1 (he ▸ hs)
  have hm2 : ∀ s ∈ Sticker.allParams, s ≠ k := fun s hs he => h2 (he ▸ hs)
  have hm3 : ∀ s ∈ StickerSet.allParams, s ≠ k := fun s hs he => h3 (he ▸ hs)
  have hr2 : ¬ k ∈ Sticker.requiredArgs := fun hm =>
    h2 ((by decide : Sticker.requiredArgs ⊆ Sticker.allParams) hm)
  have hr3 : ¬ k ∈ StickerSet.requiredArgs := fun hm =>
    h3 ((by decide : StickerSet.requiredArgs ⊆ StickerSet.allParams) hm)
  refine ⟨?_, ?_, ?_⟩
  · simp only [MaskPosition.init, missingOf_set_ne h1,
      dictGet_set_ne (hm1 "point" (by decide)),
      dictGet_set_ne (hm1 "x_shift" (by decide)),
      dictGet_set_ne (hm1 "y_shift" (by decide)),
      dictGet_set_ne (hm1 "scale" (by decide))]
  · simp only [Sticker.init, missingOf_set_ne hr2,
      hasKey_set_ne (hm2 "bot" (by decide)),
      dictGet_set_ne (hm2 "file_id" (by decide)),
      dictGet_set_ne (hm2 "file_unique_id" (by decide)),
      dictGet_set_ne (hm2 "width" (by decide)),
      dictGet_set_ne (hm2 "height" (by decide)),
      dictGet_set_ne (hm2 "is_animated" (by decide)),
      dictGet_set_ne (hm2 "thumb" (by decide)),
      dictGet_set_ne (hm2 "emoji" (by decide)),
      dictGet_set_ne (hm2 "file_size" (by decide)),
      dictGet_set_ne (hm2 "set_name" (by decide)),
      dictGet_set_ne (hm2 "mask_position" (by decide))]
  · simp only [StickerSet.init, missingOf_set_ne hr3,
      hasKey_set_ne (hm3 "bot" (by decide)),
      dictGet_set_ne (hm3 "name" (by decide)),
      dictGet_set_ne (hm3 "title" (by decide)),
      dictGet_set_ne (hm3 "is_animated" (by decide)),
      dictGet_set_ne (hm3 "contains_masks" (by decide)),
      dictGet_set_ne (hm3 "stickers" (by decide)),
      dictGet_set_ne (hm3 "thumb" (by decide))]

/-- Witness for C10: adding an unrecognized key to a complete `MaskPosition`
payload leaves all three constructors' results unchanged. -/
theorem init_ignores_unknown_keys_witness :
    ¬ "unknown_key" ∈ MaskPosition.requiredArgs
    ∧ ¬ "unknown_key" ∈ Sticker.allParams
    ∧ ¬ "unknown_key" ∈ StickerSet.allParams
    ∧ (MaskPosition.init (dictSet (.dictCons "point" (.str "forehead")
          (.dictCons "x_shift" (.rat 0) (.dictCons "y_shift" (.rat 0)
            (.dictCons "scale" (.rat 2) .dictNil)))) "unknown_key" (.int 1)) =
        MaskPosition.init (.dictCons "point" (.str "forehead")
          (.dictCons "x_shift" (.rat 0) (.dictCons "y_shift" (.rat 0)
            (.dictCons "scale" (.rat 2) .dictNil))))
      ∧ Sticker.init (dictSet (.dictCons "point" (.str "forehead")
          (.dictCons "x_shift" (.rat 0) (.dictCons "y_shift" (.rat 0)
            (.dictCons "scale" (.rat 2) .dictNil)))) "unknown_key" (.int 1)) =
        Sticker.init (.dictCons "point" (.str "forehead")
          (.dictCons "x_shift" (.rat 0) (.dictCons "y_shift" (.rat 0)
            (.dictCons "scale" (.rat 2) .dictNil))))
      ∧ StickerSet.init (dictSet (.dictCons "point" (.str "forehead")
          (.dictCons "x_shift" (.rat 0) (.dictCons "y_shift" (.rat 0)
            (.dictCons "scale" (.rat 2) .dictNil)))) "unknown_key" (.int 1)) =
        StickerSet.init (.dictCons "point" (.str "forehead")
          (.dictCons "x_shift" (.rat 0) (.dictCons "y_shift" (.rat 0)
            (.dictCons "scale" (.rat 2) .dictNil))))) :=
  ⟨by decide, by decide, by decide,
    init_ignores_unknown_keys (.dictCons "point" (.str "forehead")
      (.dictCons "x_shift" (.rat 0) (.dictCons "y_shift" (.rat 0)
        (.dictCons "scale" (.rat 2) .dictNil)))) "unknown_key" (.int 1)
      (by decide) (by decide) (by decide)⟩
